import Mathlib

/-!
Shallow embedding of the mapp audio mixing engine (src/src/mapp.hpp).

The two core classes are embedded as Lean structures:
  * `Mapp.audio`    — class `audio` (a Source): a decoder handle, the
    `m_silence` / `m_stop_later` flags and an optional finish callback
    (modelled by the flag `m_has_finish_callback`; invocations of the
    callback and of `notify_all` are reported as fields of the results of
    the operations that may perform them).
  * `Mapp.oastream` — class `oastream` (the Mixer): the active-source list
    `m_audios`, the scratch buffer `m_frames_buffer` (with its allocation
    capacity tracked explicitly), `m_volume`, `m_stop_later`, `m_silence`
    and the device running state.

Samples (C `float32`) are modelled as rationals, so the arithmetic of the
mixing loop is exact.  The external miniaudio decoder is modelled as a list
of frames plus a read position; the external device is modelled by a single
running flag, since the engine only queries and toggles its state.
-/

namespace Mapp

/-- One PCM sample; the C code uses `float32`, modelled exactly as `ℚ`. -/
abbrev Sample := ℚ

/-- One frame: one sample per channel. -/
abbrev Frame := List Sample

/-- Model of the external `ma_decoder` handle: the full decoded frame
sequence together with the current PCM read position. -/
structure decoder where
  frames : List Frame
  pos : Nat
deriving DecidableEq

/-- `ma_decoder_seek_to_pcm_frame(&d, 0)`: reposition to the first frame. -/
def decoder.seek_to_start (d : decoder) : decoder :=
  { d with pos := 0 }

/-- `ma_decoder_read_pcm_frames`: read up to `frame_count` frames from the
current position, advancing the position by the number actually read. -/
def decoder.read_pcm_frames (d : decoder) (frame_count : Nat) :
    List Frame × decoder :=
  let out := (d.frames.drop d.pos).take frame_count
  (out, { d with pos := d.pos + out.length })

/-- Class `audio` (mapp.hpp lines 145-223).  `m_has_finish_callback` records
whether `set_finish_callback` installed a callback. -/
structure audio where
  m_decoder : decoder
  m_has_finish_callback : Bool
  m_silence : Bool
  m_stop_later : Bool
deriving DecidableEq

/-- A freshly constructed `audio` (constructor plus decoder init):
`m_silence{true}`, `m_stop_later{false}`. -/
def audio.init (d : decoder) (cb : Bool) : audio :=
  { m_decoder := d, m_has_finish_callback := cb,
    m_silence := true, m_stop_later := false }

/-- `audio::is_playing` (line 159). -/
def audio.is_playing (a : audio) : Bool := !a.m_silence

/-- `audio::stop` (line 163). -/
def audio.stop (a : audio) : audio := { a with m_stop_later := true }

/-- `audio::rewind` (lines 179-183). -/
def audio.rewind (a : audio) : audio :=
  { a with m_stop_later := false, m_decoder := a.m_decoder.seek_to_start }

/-- `audio::wait` (lines 150-157) returns exactly when `m_silence` holds;
this is the predicate of its condition-variable wait. -/
def audio.wait_returns (a : audio) : Bool := a.m_silence

/-- Result of one `audio::data` call: the return value `framesDecoded`, the
frames written into the caller's buffer, the post state, whether
`finish_playing_callback` ran (hence `m_cv_finished.notify_all`), and
whether the user finish callback was invoked. -/
structure data_result where
  framesDecoded : Nat
  written : List Frame
  post : audio
  fired : Bool
  cb_invoked : Bool
deriving DecidableEq

/-- `audio::data` (lines 185-205): decode up to `frame_count` frames; if
zero frames were decoded or a stop was requested, and the source was not
already silent, set `m_silence` under the lock and run
`finish_playing_callback` (user callback if set, then `notify_all`);
otherwise just assign `m_silence = silenceNow`. -/
def audio.data (a : audio) (frame_count : Nat) : data_result :=
  let rd := a.m_decoder.read_pcm_frames frame_count
  let framesDecoded := rd.1.length
  let silenceNow : Bool := (framesDecoded == 0) || a.m_stop_later
  if silenceNow && !a.m_silence then
    { framesDecoded := framesDecoded, written := rd.1,
      post := { a with m_decoder := rd.2, m_silence := true },
      fired := true, cb_invoked := a.m_has_finish_callback }
  else
    { framesDecoded := framesDecoded, written := rd.1,
      post := { a with m_decoder := rd.2, m_silence := silenceNow },
      fired := false, cb_invoked := false }

/-- A sequence of `audio::data` calls (one play cycle seen from the source):
final state and how many times `finish_playing_callback` fired. -/
def audio.pulls : audio → List Nat → audio × Nat
  | a, [] => (a, 0)
  | a, n :: ns =>
    let r := a.data n
    let p := r.post.pulls ns
    (p.1, (if r.fired then 1 else 0) + p.2)

/-- `std::vector<float32>::resize(n)`: keep the first `n` values,
value-initialise (zero) any new elements. -/
def vecResize (l : List Sample) (n : Nat) : List Sample :=
  l.take n ++ List.replicate (n - l.length) 0

/-- Writing `data` at the start of the scratch buffer, as
`ma_decoder_read_pcm_frames` does with the decoded samples: the prefix is
overwritten, the tail keeps its previous (stale) contents. -/
def writeFront (scratch data : List Sample) : List Sample :=
  data ++ scratch.drop data.length

/-- The accumulation loop (lines 350-352):
`fOutput[i] += volume * audio_output[i]` for every `i < k`. -/
def mixAccum (dst scratch : List Sample) (v : ℚ) (k : Nat) : List Sample :=
  ((dst.take k).zipWith (fun o s => o + v * s) (scratch.take k)) ++ dst.drop k

/-- Intermediate state of the mixing loop over `m_audios`. -/
structure mix_state where
  dst : List Sample
  scratch : List Sample
  audios : List Mapp.audio
  fired : List Bool
deriving DecidableEq

/-- One iteration of the loop at lines 347-353: pull from one source into
the scratch buffer and accumulate `volume * sample` into the destination
for the `framesDecoded * channels` produced samples. -/
def mixOne (channels : Nat) (v : ℚ) (frame_count : Nat)
    (st : mix_state) (a : audio) : mix_state :=
  let r := a.data frame_count
  let scratch := writeFront st.scratch r.written.flatten
  let dst := mixAccum st.dst scratch v (r.framesDecoded * channels)
  { dst := dst, scratch := scratch,
    audios := st.audios ++ [r.post], fired := st.fired ++ [r.fired] }

/-- Class `oastream` (mapp.hpp lines 267-415).  `buffer_cap` tracks the
allocation capacity of `m_frames_buffer`; `device_running` models the
external `ma_device` state (`MA_STATE_STOPPED` versus started). -/
structure oastream where
  channels : Nat
  m_audios : List audio
  m_frames_buffer : List Sample
  buffer_cap : Nat
  m_volume : ℚ
  m_stop_later : Bool
  m_silence : Bool
  device_running : Bool
deriving DecidableEq

/-- A freshly constructed `oastream`: `ma_device_init` does not start the
device; the member initialisers give an empty audio list, an empty scratch
buffer, `m_volume{1.0f}`, `m_stop_later{false}`, `m_silence{true}`. -/
def oastream.init (channels : Nat) : oastream :=
  { channels := channels, m_audios := [], m_frames_buffer := [],
    buffer_cap := 0, m_volume := 1, m_stop_later := false,
    m_silence := true, device_running := false }

/-- `oastream::wait` (lines 315-322) returns exactly when `m_silence`
holds; this is the predicate of its condition-variable wait. -/
def oastream.wait_returns (s : oastream) : Bool := s.m_silence

/-- `oastream::set_volume` (line 326). -/
def oastream.set_volume (s : oastream) (v : ℚ) : oastream :=
  { s with m_volume := v }

/-- `oastream::stop_audios` (line 296). -/
def oastream.stop_audios (s : oastream) : oastream :=
  { s with m_stop_later := true }

/-- `oastream::stop_stream` (lines 300-304): `stop_audios()` then the
synchronous `ma_device_stop`. -/
def oastream.stop_stream (s : oastream) : oastream :=
  { s.stop_audios with device_running := false }

/-- Result of `oastream::play_impl`: the post state and whether
`ma_device_start` was issued. -/
structure play_result where
  stream : oastream
  device_started : Bool
deriving DecidableEq

/-- `oastream::play_impl` (lines 392-403): clear `m_silence`, then start
the device only if it is currently stopped (the start is assumed to
succeed; a failure throws and is out of scope of the mixing model). -/
def oastream.play_impl (s : oastream) : play_result :=
  let s1 : oastream := { s with m_silence := false }
  if s1.device_running then { stream := s1, device_started := false }
  else { stream := { s1 with device_running := true }, device_started := true }

/-- `oastream::start` (line 292). -/
def oastream.start (s : oastream) : play_result := s.play_impl

/-- `oastream::play` (lines 307-313): rewind the source, clear its silence
flag, append it to `m_audios`, then `play_impl`. -/
def oastream.play (s : oastream) (a : audio) : play_result :=
  let a1 : audio := { a.rewind with m_silence := false }
  oastream.play_impl { s with m_audios := s.m_audios ++ [a1] }

/-- The mixing loop of `data_callback_impl` (lines 339-353): resize the
scratch buffer to `frameCount * channels`, zero-fill the destination, then
fold the per-source pull-and-accumulate step over `m_audios`. -/
def oastream.mixFold (s : oastream) (frameCount : Nat) : mix_state :=
  let buffer_size_frames := frameCount * s.channels
  s.m_audios.foldl (mixOne s.channels s.m_volume frameCount)
    { dst := List.replicate buffer_size_frames 0,
      scratch := vecResize s.m_frames_buffer buffer_size_frames,
      audios := [], fired := [] }

/-- The eviction step (lines 355-362): on a pending `stop_audios` request
erase every source, otherwise erase exactly the sources whose
`is_playing()` is now false. -/
def oastream.postEvict (s : oastream) (frameCount : Nat) : List audio :=
  if s.m_stop_later then []
  else (s.mixFold frameCount).audios.filter audio.is_playing

/-- Result of one `data_callback_impl` invocation: the post state, the
destination buffer contents, the per-source `finish_playing_callback`
flags, whether the stream-level silence transition (with its
`notify_all`) happened, and whether the scratch-buffer resize had to
reallocate. -/
structure callback_result where
  stream : oastream
  output : List Sample
  fired : List Bool
  stream_notified : Bool
  reallocated : Bool
deriving DecidableEq

/-- `oastream::data_callback_impl` (lines 337-372): mix, evict, and if the
active list became empty while the stream was not already silent, set
`m_silence` under the lock and run the stream's `finish_playing_callback`
(which clears `m_stop_later` and calls `notify_all`); finally reassign
`m_silence = m_audios.empty()` (line 371). -/
def oastream.data_callback_impl (s : oastream) (frameCount : Nat) :
    callback_result :=
  let buffer_size_frames := frameCount * s.channels
  let m := s.mixFold frameCount
  let audios1 := s.postEvict frameCount
  if audios1.isEmpty && !s.m_silence then
    let s1 : oastream :=
      { s with m_audios := audios1, m_frames_buffer := m.scratch,
               buffer_cap := max s.buffer_cap buffer_size_frames,
               m_stop_later := false, m_silence := audios1.isEmpty }
    { stream := s1, output := m.dst, fired := m.fired,
      stream_notified := true,
      reallocated := decide (s.buffer_cap < buffer_size_frames) }
  else
    let s1 : oastream :=
      { s with m_audios := audios1, m_frames_buffer := m.scratch,
               buffer_cap := max s.buffer_cap buffer_size_frames,
               m_silence := audios1.isEmpty }
    { stream := s1, output := m.dst, fired := m.fired,
      stream_notified := false,
      reallocated := decide (s.buffer_cap < buffer_size_frames) }

/-- A sequence of callback invocations: final stream state and whether any
of them reallocated the scratch buffer. -/
def oastream.runCallbacks : oastream → List Nat → oastream × Bool
  | s, [] => (s, false)
  | s, n :: ns =>
    let r := s.data_callback_impl n
    let p := r.stream.runCallbacks ns
    (p.1, r.reallocated || p.2)

/-!
Event traces for the lock protocol.  Each silence flag (one per `audio`,
one per `oastream`) is guarded by its own mutex / condition-variable pair;
for a given object we record, in program order, the mutex acquisitions and
releases, the assignments to the silence flag and the `notify_all` calls
that the object's member functions perform. -/

/-- One synchronisation event on a silence flag's mutex/flag/cv triple. -/
inductive Ev where
  | lockMutex
  | unlockMutex
  | setFlag (b : Bool)
  | notifyAll
deriving DecidableEq

/-- Scanner state for the trace predicates below. -/
structure scan_state where
  depth : Nat
  flag : Bool
  ok : Bool
deriving DecidableEq

/-- Every `notifyAll` in the trace happens while the mutex is held. -/
def notifsInLock (tr : List Ev) : Bool :=
  (tr.foldl
    (fun (st : scan_state) e =>
      match e with
      | Ev.lockMutex => { st with depth := st.depth + 1 }
      | Ev.unlockMutex => { st with depth := st.depth - 1 }
      | Ev.setFlag b => { st with flag := b }
      | Ev.notifyAll => { st with ok := st.ok && decide (0 < st.depth) })
    { depth := 0, flag := false, ok := true }).ok

/-- Every assignment that raises the flag from `false` to `true` (the only
updates that can release a waiter) happens while the mutex is held.
`init` is the flag value before the trace runs. -/
def releasesInLock (init : Bool) (tr : List Ev) : Bool :=
  (tr.foldl
    (fun (st : scan_state) e =>
      match e with
      | Ev.lockMutex => { st with depth := st.depth + 1 }
      | Ev.unlockMutex => { st with depth := st.depth - 1 }
      | Ev.setFlag b =>
        { st with flag := b,
                  ok := st.ok && (!(b && !st.flag) || decide (0 < st.depth)) }
      | Ev.notifyAll => st)
    { depth := 0, flag := init, ok := true }).ok

/-- After the trace, no raising of the flag is still waiting for its
`notifyAll`: every `false → true` flag update is followed, later in the
same invocation, by a `notifyAll`.  Encoded with `ok = false` meaning a
notification is still pending at the end. -/
def noPendingNotify (init : Bool) (tr : List Ev) : Bool :=
  (tr.foldl
    (fun (st : scan_state) e =>
      match e with
      | Ev.setFlag b => { st with flag := b, ok := st.ok && !(b && !st.flag) }
      | Ev.notifyAll => { st with ok := true }
      | _ => st)
    { depth := 0, flag := init, ok := true }).ok

/-- The synchronisation events of `audio::data` (lines 185-205) on the
source's own mutex/flag/cv: on the silence transition the flag is set
inside a `lock_guard` scope and `notify_all` runs after that scope ends;
otherwise line 201 assigns the flag with no lock held. -/
def audio.dataEvents (a : audio) (frame_count : Nat) : List Ev :=
  let framesDecoded := (a.m_decoder.read_pcm_frames frame_count).1.length
  let silenceNow : Bool := (framesDecoded == 0) || a.m_stop_later
  if silenceNow && !a.m_silence then
    [Ev.lockMutex, Ev.setFlag true, Ev.unlockMutex, Ev.notifyAll]
  else
    [Ev.setFlag silenceNow]

/-- The synchronisation events of `data_callback_impl` (lines 363-371) on
the stream's own mutex/flag/cv: on the transition the flag is set inside a
`lock_guard` scope, `notify_all` runs after that scope ends, and line 371
reassigns the flag with no lock held; otherwise only line 371 runs. -/
def oastream.callbackEvents (s : oastream) (frameCount : Nat) : List Ev :=
  let audios1 := s.postEvict frameCount
  if audios1.isEmpty && !s.m_silence then
    [Ev.lockMutex, Ev.setFlag true, Ev.unlockMutex, Ev.notifyAll,
     Ev.setFlag audios1.isEmpty]
  else
    [Ev.setFlag audios1.isEmpty]

/-- The synchronisation events of `play_impl` (line 394) on the stream's
flag: an unlocked assignment of `false`. -/
def oastream.playImplEvents : List Ev := [Ev.setFlag false]

/-- The synchronisation events of `oastream::play` (line 310) on the
played source's flag: an unlocked assignment of `false`. -/
def oastream.playAudioEvents : List Ev := [Ev.setFlag false]

/-!  Characterisation lemmas for `audio::data`. -/

/-- The number of frames a `data` call on `a` decodes. -/
def audio.framesDecoded (a : audio) (n : Nat) : Nat :=
  ((a.m_decoder.frames.drop a.m_decoder.pos).take n).length

/-- The local `silenceNow` of `audio::data` (line 190). -/
def audio.silenceNow (a : audio) (n : Nat) : Bool :=
  (a.framesDecoded n == 0) || a.m_stop_later

/-- `audio::data` in closed form: the decoder advances by the frames read,
`m_silence` becomes `silenceNow` in both branches (in the transition branch
`silenceNow` is true), `finish_playing_callback` runs precisely on the
transition, and the user callback runs precisely when one is set. -/
theorem audio.data_eq (a : audio) (n : Nat) :
    a.data n =
      { framesDecoded := a.framesDecoded n,
        written := (a.m_decoder.frames.drop a.m_decoder.pos).take n,
        post := { a with
                  m_decoder := { frames := a.m_decoder.frames,
                                 pos := a.m_decoder.pos + a.framesDecoded n },
                  m_silence := a.silenceNow n },
        fired := a.silenceNow n && !a.m_silence,
        cb_invoked := (a.silenceNow n && !a.m_silence) &&
          a.m_has_finish_callback } := by
  by_cases h : (a.silenceNow n && !a.m_silence) = true
  case pos =>
    have h2 := h
    simp only [audio.silenceNow, audio.framesDecoded] at h2
    have hs : a.silenceNow n = true := (Bool.and_eq_true .. |>.mp h).1
    simp only [audio.data, decoder.read_pcm_frames, h2, if_true, h, hs,
      audio.framesDecoded, audio.silenceNow]
    have hs2 : ((List.take n (List.drop a.m_decoder.pos
        a.m_decoder.frames)).length == 0 || a.m_stop_later) = true := by
      simpa [audio.silenceNow, audio.framesDecoded] using hs
    simp [hs2]
    simpa using hs2
  case neg =>
    have h2 := h
    simp only [audio.silenceNow, audio.framesDecoded] at h2
    simp only [audio.data, decoder.read_pcm_frames, h2, if_false,
      eq_self_iff_true, h, audio.framesDecoded, audio.silenceNow]
    simp at h2
    simp [h2]

theorem audio.data_framesDecoded (a : audio) (n : Nat) :
    (a.data n).framesDecoded = a.framesDecoded n := by
  rw [audio.data_eq]

theorem audio.data_written (a : audio) (n : Nat) :
    (a.data n).written = (a.m_decoder.frames.drop a.m_decoder.pos).take n := by
  rw [audio.data_eq]

theorem audio.data_fired (a : audio) (n : Nat) :
    (a.data n).fired = (a.silenceNow n && !a.m_silence) := by
  rw [audio.data_eq]

theorem audio.data_post_silence (a : audio) (n : Nat) :
    (a.data n).post.m_silence = a.silenceNow n := by
  rw [audio.data_eq]

theorem audio.data_post_stop_later (a : audio) (n : Nat) :
    (a.data n).post.m_stop_later = a.m_stop_later := by
  rw [audio.data_eq]

theorem audio.data_post_cb (a : audio) (n : Nat) :
    (a.data n).post.m_has_finish_callback = a.m_has_finish_callback := by
  rw [audio.data_eq]

theorem audio.data_post_frames (a : audio) (n : Nat) :
    (a.data n).post.m_decoder.frames = a.m_decoder.frames := by
  rw [audio.data_eq]

theorem audio.data_post_pos (a : audio) (n : Nat) :
    (a.data n).post.m_decoder.pos = a.m_decoder.pos + a.framesDecoded n := by
  rw [audio.data_eq]

theorem audio.data_cb_invoked (a : audio) (n : Nat) :
    (a.data n).cb_invoked = ((a.data n).fired && a.m_has_finish_callback) := by
  rw [audio.data_eq]

/-!  Characterisation lemmas for the mixing loop and the callback. -/

theorem foldl_mixOne_audios (ch : Nat) (v : ℚ) (n : Nat) :
    ∀ (l : List audio) (st : mix_state),
      (l.foldl (mixOne ch v n) st).audios =
        st.audios ++ l.map (fun a => (a.data n).post)
  | [], st => by simp
  | a :: l, st => by
    rw [List.foldl_cons, foldl_mixOne_audios ch v n l]
    simp [mixOne]

theorem foldl_mixOne_fired (ch : Nat) (v : ℚ) (n : Nat) :
    ∀ (l : List audio) (st : mix_state),
      (l.foldl (mixOne ch v n) st).fired =
        st.fired ++ l.map (fun a => (a.data n).fired)
  | [], st => by simp
  | a :: l, st => by
    rw [List.foldl_cons, foldl_mixOne_fired ch v n l]
    simp [mixOne]

theorem oastream.mixFold_audios (s : oastream) (n : Nat) :
    (s.mixFold n).audios = s.m_audios.map (fun a => (a.data n).post) := by
  unfold oastream.mixFold
  rw [foldl_mixOne_audios]
  rfl

theorem oastream.mixFold_fired (s : oastream) (n : Nat) :
    (s.mixFold n).fired = s.m_audios.map (fun a => (a.data n).fired) := by
  unfold oastream.mixFold
  rw [foldl_mixOne_fired]
  rfl

/-- The post state of the eviction step in closed form. -/
theorem oastream.postEvict_eq (s : oastream) (n : Nat) :
    s.postEvict n =
      if s.m_stop_later then []
      else (s.m_audios.map (fun a => (a.data n).post)).filter
        audio.is_playing := by
  unfold oastream.postEvict
  rw [oastream.mixFold_audios]

/-- `data_callback_impl` in closed form. -/
theorem oastream.data_callback_impl_eq (s : oastream) (n : Nat) :
    s.data_callback_impl n =
      { stream := { s with
          m_audios := s.postEvict n,
          m_frames_buffer := (s.mixFold n).scratch,
          buffer_cap := max s.buffer_cap (n * s.channels),
          m_stop_later :=
            if ((s.postEvict n).isEmpty && !s.m_silence) = true then false
            else s.m_stop_later,
          m_silence := (s.postEvict n).isEmpty },
        output := (s.mixFold n).dst,
        fired := (s.mixFold n).fired,
        stream_notified := (s.postEvict n).isEmpty && !s.m_silence,
        reallocated := decide (s.buffer_cap < n * s.channels) } := by
  by_cases h : ((s.postEvict n).isEmpty && !s.m_silence) = true
  case pos =>
    simp only [oastream.data_callback_impl, h, if_true]
  case neg =>
    simp only [oastream.data_callback_impl, h, if_false]
    rw [Bool.not_eq_true] at h
    simp [h]

theorem oastream.cb_audios (s : oastream) (n : Nat) :
    (s.data_callback_impl n).stream.m_audios = s.postEvict n := by
  rw [oastream.data_callback_impl_eq]

theorem oastream.cb_silence (s : oastream) (n : Nat) :
    (s.data_callback_impl n).stream.m_silence = (s.postEvict n).isEmpty := by
  rw [oastream.data_callback_impl_eq]

theorem oastream.cb_notified (s : oastream) (n : Nat) :
    (s.data_callback_impl n).stream_notified =
      ((s.postEvict n).isEmpty && !s.m_silence) := by
  rw [oastream.data_callback_impl_eq]

theorem oastream.cb_fired (s : oastream) (n : Nat) :
    (s.data_callback_impl n).fired =
      s.m_audios.map (fun a => (a.data n).fired) := by
  rw [oastream.data_callback_impl_eq]
  exact s.mixFold_fired n

theorem oastream.cb_stop_later (s : oastream) (n : Nat) :
    (s.data_callback_impl n).stream.m_stop_later =
      (if ((s.postEvict n).isEmpty && !s.m_silence) = true then false
       else s.m_stop_later) := by
  rw [oastream.data_callback_impl_eq]

theorem oastream.cb_reallocated (s : oastream) (n : Nat) :
    (s.data_callback_impl n).reallocated =
      decide (s.buffer_cap < n * s.channels) := by
  rw [oastream.data_callback_impl_eq]

theorem oastream.cb_buffer_cap (s : oastream) (n : Nat) :
    (s.data_callback_impl n).stream.buffer_cap =
      max s.buffer_cap (n * s.channels) := by
  rw [oastream.data_callback_impl_eq]

theorem oastream.cb_channels (s : oastream) (n : Nat) :
    (s.data_callback_impl n).stream.channels = s.channels := by
  rw [oastream.data_callback_impl_eq]

theorem oastream.cb_device (s : oastream) (n : Nat) :
    (s.data_callback_impl n).stream.device_running = s.device_running := by
  rw [oastream.data_callback_impl_eq]

/-- `oastream::play` in closed form: the appended source is the rewound,
non-silent copy, the stream is marked not silent, and the device ends up
running, the start being issued exactly when it was stopped. -/
theorem oastream.play_eq (s : oastream) (a : audio) :
    s.play a =
      { stream := { s with
          m_audios := s.m_audios ++ [{ a with
            m_decoder := { frames := a.m_decoder.frames, pos := 0 },
            m_silence := false, m_stop_later := false }],
          m_silence := false, device_running := true },
        device_started := !s.device_running } := by
  by_cases h : s.device_running = true
  case pos =>
    simp [oastream.play, oastream.play_impl, audio.rewind,
      decoder.seek_to_start, h]
  case neg =>
    rw [Bool.not_eq_true] at h
    simp [oastream.play, oastream.play_impl, audio.rewind,
      decoder.seek_to_start, h]

/-!  Concrete test data, usable by several witnesses. -/

/-- A two-channel three-frame test clip. -/
def demoClip : decoder := { frames := [[1, 2], [3, 4], [5, 6]], pos := 0 }

/-- A freshly constructed source over `demoClip` with a finish callback. -/
def demoAudio : audio := audio.init demoClip true

/-- A source whose decoder holds no frames at all. -/
def emptyAudio : audio := audio.init { frames := [], pos := 0 } true

/-- A freshly constructed two-channel stream. -/
def demoStream : oastream := oastream.init 2

/-- A one-channel one-frame source already in its playing state. -/
def cexAudio : audio :=
  { m_decoder := { frames := [[1]], pos := 0 },
    m_has_finish_callback := true, m_silence := false, m_stop_later := false }

/-!  The claims. -/

/-- Claim C7: `play(source)` rewinds the source (decoder repositioned to
the first frame, pending stop request cleared), marks it not-silent,
appends it to the Mixer's active set, and ensures the Device is running —
issuing a start exactly when it was stopped and doing nothing when it was
already running. -/
theorem claim_C7_play (s : oastream) (a : audio) :
    (s.play a).stream.m_audios =
      s.m_audios ++ [{ a with
        m_decoder := { frames := a.m_decoder.frames, pos := 0 },
        m_silence := false, m_stop_later := false }] ∧
    (s.play a).stream.m_silence = false ∧
    (s.play a).stream.device_running = true ∧
    (s.play a).device_started = !s.device_running := by
  rw [oastream.play_eq]
  exact ⟨rfl, rfl, rfl, rfl⟩

/-- Claim C6 is refuted on the code: after `play` of a live source followed
immediately by `stop_stream()` (no callback runs in between, the device
being stopped synchronously), the Mixer is NOT silent — `stop_stream` only
raises the drop-all request and stops the device, it never touches
`m_silence` — and a subsequent `play` is not clean either: the stale
drop-all request evicts the freshly played source at the next callback
even though its decoder has frames remaining. -/
theorem claim_C6_counterexample :
    ((demoStream.play demoAudio).stream.stop_stream).m_silence = false ∧
    ((demoStream.play demoAudio).stream.stop_stream).device_running
      = false ∧
    ((((demoStream.play demoAudio).stream.stop_stream).play
        demoAudio).stream.data_callback_impl 1).stream.m_audios = [] ∧
    ((((demoStream.play demoAudio).stream.stop_stream).play
        demoAudio).stream.data_callback_impl 1).fired = [false, false] := by
  decide

/-- Claim C6 (amended): `stop_stream()` performs `stop_audios()` and then
synchronously stops the Device; after it returns the Device is not running
and the drop-all request is pending, while the silence flag and the active
list are unchanged (the Mixer becomes silent only when a callback
processes the request).  A subsequent `play` does restart the Device, but
the still-pending drop-all request evicts every source at the next
callback. -/
theorem claim_C6_stop_stream (s : oastream) (a : audio) (n : Nat) :
    s.stop_stream.device_running = false ∧
    s.stop_stream.m_stop_later = true ∧
    s.stop_stream.m_silence = s.m_silence ∧
    s.stop_stream.m_audios = s.m_audios ∧
    (s.stop_stream.play a).stream.device_running = true ∧
    ((s.stop_stream.play a).stream.data_callback_impl n).stream.m_audios
      = [] := by
  refine ⟨rfl, rfl, rfl, rfl, ?_, ?_⟩
  · rw [oastream.play_eq]
  · rw [oastream.cb_audios, oastream.postEvict_eq]
    have h : ((s.stop_stream.play a).stream).m_stop_later = true := by
      rw [oastream.play_eq]
      rfl
    rw [h]
    rfl

/-- Claim C10 (implicit invariant): at the end of every callback
invocation the Mixer's silence flag equals the emptiness of the
active-source list — a callback that leaves a source active resets the
flag to false — and whenever the callback makes the Mixer transition to
silent, the pending drop-all request flag is cleared, and remains cleared
through a subsequent `play`, so that source is not dropped by a stale
request. -/
theorem claim_C10_callback_invariant (s : oastream) (n : Nat) (b : audio) :
    ((s.data_callback_impl n).stream.m_silence =
      (s.data_callback_impl n).stream.m_audios.isEmpty) ∧
    ((s.data_callback_impl n).stream.m_audios ≠ [] →
      (s.data_callback_impl n).stream.m_silence = false) ∧
    ((s.data_callback_impl n).stream_notified = true →
      (s.data_callback_impl n).stream.m_stop_later = false ∧
      (((s.data_callback_impl n).stream.play b).stream.m_stop_later
        = false)) := by
  refine ⟨?_, ?_, ?_⟩
  · rw [oastream.cb_silence, oastream.cb_audios]
  · intro h
    rw [oastream.cb_silence]
    rw [oastream.cb_audios] at h
    simpa [List.isEmpty_iff] using h
  · intro h
    rw [oastream.cb_notified] at h
    have h1 : (s.data_callback_impl n).stream.m_stop_later = false := by
      rw [oastream.cb_stop_later, if_pos h]
    refine ⟨h1, ?_⟩
    rw [oastream.play_eq]
    exact h1

/-- Claim C4: the eviction rule of the callback: on a pending `stop_audios`
request every source is evicted unconditionally, otherwise exactly the
sources whose `is_playing()` became false during this callback are
evicted; in both cases the per-source `finish_playing_callback` flags are
exactly those produced by each source's own `data` pull — eviction itself
invokes no finish callback. -/
theorem claim_C4_eviction (s : oastream) (n : Nat) :
    ((s.data_callback_impl n).stream.m_audios =
      if s.m_stop_later then []
      else (s.m_audios.map (fun a => (a.data n).post)).filter
        audio.is_playing) ∧
    ((s.data_callback_impl n).fired =
      s.m_audios.map (fun a => (a.data n).fired)) := by
  refine ⟨?_, oastream.cb_fired s n⟩
  rw [oastream.cb_audios, oastream.postEvict_eq]

/-- Claim C1: the Mixer becomes silent (its `wait` predicate holds)
exactly when the active set drains — never earlier, never later: the
callback notifies the waiters precisely when the post-eviction set is
empty and the Mixer was not already silent, a notification leaves the
Mixer silent, the silence flag always equals the emptiness of the active
list, and — absent a drop-all request — the Mixer is silent after a
callback precisely when every one of its sources stopped playing during
that callback's pulls. -/
theorem claim_C1_silence_on_drain (s : oastream) (n : Nat) :
    ((s.data_callback_impl n).stream_notified = true ↔
      (s.postEvict n = [] ∧ s.m_silence = false)) ∧
    ((s.data_callback_impl n).stream_notified = true →
      (s.data_callback_impl n).stream.wait_returns = true) ∧
    ((s.data_callback_impl n).stream.wait_returns =
      (s.data_callback_impl n).stream.m_audios.isEmpty) ∧
    (s.m_stop_later = false →
      ((s.data_callback_impl n).stream.wait_returns = true ↔
        ∀ a ∈ s.m_audios, (a.data n).post.is_playing = false)) := by
  refine ⟨?_, ?_, ?_, ?_⟩
  · rw [oastream.cb_notified]
    constructor
    · intro h
      rcases Bool.and_eq_true .. |>.mp h with ⟨h1, h2⟩
      exact ⟨List.isEmpty_iff.mp h1, by simpa using h2⟩
    · intro h
      rw [List.isEmpty_iff.mpr h.1, h.2]
      rfl
  · intro h
    rw [oastream.cb_notified] at h
    show (s.data_callback_impl n).stream.m_silence = true
    rw [oastream.cb_silence]
    exact (Bool.and_eq_true .. |>.mp h).1
  · show (s.data_callback_impl n).stream.m_silence = _
    rw [oastream.cb_silence, oastream.cb_audios]
  · intro hstop
    show (s.data_callback_impl n).stream.m_silence = true ↔ _
    rw [oastream.cb_silence, oastream.postEvict_eq, hstop]
    rw [if_neg (by simp)]
    rw [List.isEmpty_iff, List.filter_eq_nil_iff]
    constructor
    · intro h a ha
      have := h ((a.data n).post) (List.mem_map_of_mem _ ha)
      simpa using this
    · intro h x hx
      rcases List.mem_map.mp hx with ⟨a, ha, rfl⟩
      simpa using h a ha

/-- Claim C2: a pull that decodes zero frames, or one issued after a
`stop()` request, on a not-yet-silent source, transitions the source to
silent, runs `finish_playing_callback` (so the user callback is invoked
exactly when one is set and the waiters are notified), and makes the
source's `wait` return; in particular `stop()` followed by one pull makes
the source silent — whatever data its decoder still holds. -/
theorem claim_C2_pull_silence (a : audio) (n : Nat)
    (h : a.m_silence = false) :
    (((a.data n).framesDecoded = 0 ∨ a.m_stop_later = true) →
      (a.data n).post.m_silence = true ∧
      (a.data n).fired = true ∧
      (a.data n).cb_invoked = a.m_has_finish_callback ∧
      (a.data n).post.wait_returns = true) ∧
    ((a.stop.data n).post.m_silence = true ∧
      (a.stop.data n).fired = true ∧
      (a.stop.data n).cb_invoked = a.m_has_finish_callback) := by
  constructor
  · intro hz
    have hs : a.silenceNow n = true := by
      rcases hz with hz | hz
      · rw [audio.data_framesDecoded] at hz
        simp [audio.silenceNow, hz]
      · simp [audio.silenceNow, hz]
    have hf : (a.data n).fired = true := by
      rw [audio.data_fired, hs, h]
      rfl
    refine ⟨?_, hf, ?_, ?_⟩
    · rw [audio.data_post_silence, hs]
    · rw [audio.data_cb_invoked, hf]
      rfl
    · show (a.data n).post.m_silence = true
      rw [audio.data_post_silence, hs]
  · have hs : a.stop.silenceNow n = true := by
      simp [audio.silenceNow, audio.stop]
    have hf : (a.stop.data n).fired = true := by
      rw [audio.data_fired, hs]
      simp [audio.stop, h]
    refine ⟨?_, hf, ?_⟩
    · rw [audio.data_post_silence, hs]
    · rw [audio.data_cb_invoked, hf]
      simp [audio.stop]

/-- Claim C9 is refuted on the code: nothing pre-sizes the scratch buffer
before the first callback — a freshly constructed (and started) stream has
an empty buffer of zero capacity, and the very first callback performs a
reallocation inside the callback. -/
theorem claim_C9_counterexample :
    (oastream.init 2).m_frames_buffer = [] ∧
    (oastream.init 2).buffer_cap = 0 ∧
    ((oastream.init 2).start.stream.data_callback_impl 4).reallocated
      = true := by
  decide

/-- Claim C9 (amended): the scratch buffer is sized inside the callback,
not before it: a callback reallocates exactly when its requested size
`frameCount * channels` exceeds the current capacity, after which the
capacity is the maximum of the sizes requested so far; consequently any
sequence of callbacks whose requested sizes stay within an
already-accommodated capacity performs no reallocation at all. -/
theorem claim_C9_scratch_capacity (s : oastream) (n : Nat) (ns : List Nat) :
    ((s.data_callback_impl n).reallocated =
      decide (s.buffer_cap < n * s.channels)) ∧
    ((s.data_callback_impl n).stream.buffer_cap =
      max s.buffer_cap (n * s.channels)) ∧
    ((∀ m ∈ ns, m * s.channels ≤ s.buffer_cap) →
      (s.runCallbacks ns).2 = false) := by
  refine ⟨oastream.cb_reallocated s n, oastream.cb_buffer_cap s n, ?_⟩
  clear n
  induction ns generalizing s with
  | nil => intro _; rfl
  | cons m ms ih =>
    intro hall
    have hm : m * s.channels ≤ s.buffer_cap := hall m (by simp)
    have h1 : (s.data_callback_impl m).reallocated = false := by
      rw [oastream.cb_reallocated]
      simpa using hm
    have h2 : (s.data_callback_impl m).stream.buffer_cap = s.buffer_cap := by
      rw [oastream.cb_buffer_cap]
      exact Nat.max_eq_left hm
    have h3 := oastream.cb_channels s m
    have ih2 : ((s.data_callback_impl m).stream.runCallbacks ms).2
        = false := by
      apply ih
      intro k hk
      rw [h2, h3]
      exact hall k (by simp [hk])
    show ((s.data_callback_impl m).reallocated ||
      ((s.data_callback_impl m).stream.runCallbacks ms).2) = false
    rw [h1, ih2]
    rfl

/-!  Witnesses. -/

/-- Witness for claim C1 at concrete inputs: a stream playing `emptyAudio`
whose single pull exhausts it — the very callback that drains the set
notifies and leaves the Mixer silent. -/
theorem claim_C1_witness :
    ((demoStream.play emptyAudio).stream.m_stop_later = false) ∧
    ((demoStream.play emptyAudio).stream.data_callback_impl
      2).stream.wait_returns = true := by
  refine ⟨by decide, ?_⟩
  have h := claim_C1_silence_on_drain (demoStream.play emptyAudio).stream 2
  exact (h.2.2.2 (by decide)).mpr (by decide)

/-- Witness for claim C2 at concrete inputs: `cexAudio` is playing and its
decoder still has a frame left; `stop()` followed by one pull silences it
and fires the callback. -/
theorem claim_C2_witness :
    cexAudio.m_silence = false ∧
    cexAudio.m_decoder.pos < cexAudio.m_decoder.frames.length ∧
    (cexAudio.stop.data 4).post.m_silence = true ∧
    (cexAudio.stop.data 4).fired = true ∧
    (cexAudio.stop.data 4).cb_invoked = true := by
  have h := (claim_C2_pull_silence cexAudio 4 (by decide)).2
  exact ⟨by decide, by decide, h.1, h.2.1, h.2.2⟩

/-- Witness for claim C10 at concrete inputs: the callback that drains the
stream playing `emptyAudio` notifies, and afterwards no drop-all request
is pending, also after playing `demoAudio`. -/
theorem claim_C10_witness :
    (((demoStream.play emptyAudio).stream.data_callback_impl
        2).stream.m_stop_later = false) ∧
    ((((demoStream.play emptyAudio).stream.data_callback_impl
        2).stream.play demoAudio).stream.m_stop_later = false) := by
  have h := claim_C10_callback_invariant
    (demoStream.play emptyAudio).stream 2 demoAudio
  exact h.2.2 (by decide)

/-- A two-channel stream whose scratch buffer already has capacity 8. -/
def capStream : oastream :=
  { demoStream with
    buffer_cap := 8, m_frames_buffer := List.replicate 8 0 }

/-- Witness for claim C9 at concrete inputs: once a capacity of 8 samples
exists, callbacks requesting 1, 2 and 4 frames on a two-channel stream
never reallocate. -/
theorem claim_C9_witness :
    (capStream.runCallbacks [1, 2, 4]).2 = false := by
  have h := claim_C9_scratch_capacity capStream 0 [1, 2, 4]
  exact h.2.2 (by decide)

/-!  One-shot behaviour of the finish callback along a pull sequence. -/

theorem audio.pulls_cons (a : audio) (n : Nat) (ns : List Nat) :
    a.pulls (n :: ns) =
      (((a.data n).post.pulls ns).1,
       (if (a.data n).fired then 1 else 0) + ((a.data n).post.pulls ns).2) :=
  rfl

theorem framesDecoded_zero_exhausted (a : audio) (n : Nat) (hn : 0 < n)
    (h : a.framesDecoded n = 0) :
    a.m_decoder.frames.length ≤ a.m_decoder.pos := by
  unfold audio.framesDecoded at h
  rw [List.length_take, List.length_drop] at h
  omega

/-- Once a source went silent because it is exhausted or stopped, further
pulls of at least one frame keep it silent and never fire the callback. -/
theorem pulls_silent_absorb (ns : List Nat) : ∀ (a : audio),
    a.m_silence = true →
    (a.m_decoder.frames.length ≤ a.m_decoder.pos ∨ a.m_stop_later = true) →
    (∀ n ∈ ns, 0 < n) →
    (a.pulls ns).2 = 0 ∧ (a.pulls ns).1.m_silence = true := by
  induction ns with
  | nil => intro a ha _ _; exact ⟨rfl, ha⟩
  | cons n ns ih =>
    intro a ha habs hp
    have hs : a.silenceNow n = true := by
      rcases habs with h | h
      · have : a.framesDecoded n = 0 := by
          unfold audio.framesDecoded
          rw [List.length_take, List.length_drop]
          omega
        simp [audio.silenceNow, this]
      · simp [audio.silenceNow, h]
    have hf : (a.data n).fired = false := by
      rw [audio.data_fired, ha]
      simp
    have hpost : (a.data n).post.m_silence = true := by
      rw [audio.data_post_silence, hs]
    have habs2 : (a.data n).post.m_decoder.frames.length ≤
        (a.data n).post.m_decoder.pos ∨
        (a.data n).post.m_stop_later = true := by
      rcases habs with h | h
      · left
        rw [audio.data_post_frames, audio.data_post_pos]
        have : a.framesDecoded n = 0 := by
          unfold audio.framesDecoded
          rw [List.length_take, List.length_drop]
          omega
        omega
      · right
        rw [audio.data_post_stop_later]
        exact h
    have hrest := ih ((a.data n).post) hpost habs2
      (fun m hm => hp m (List.mem_cons_of_mem _ hm))
    rw [audio.pulls_cons, hf]
    exact ⟨by simpa using hrest.1, hrest.2⟩

/-- Claim C5 is refuted on the code: a pull requesting zero frames decodes
zero frames and is treated as a completion, so on a playing one-frame
source the pull sequence `[0, 1, 1]` fires the finish callback twice
within a single play cycle (the zero-frame pull fires it spuriously, the
next pull resurrects the source, and its genuine exhaustion fires it
again). -/
theorem claim_C5_counterexample :
    cexAudio.m_silence = false ∧ (cexAudio.pulls [0, 1, 1]).2 = 2 := by
  decide

/-- Claim C5 (amended): over any sequence of pulls each requesting at
least one frame, a playing source's finish callback fires at most once,
and exactly once when the cycle completes (the source ends silent). -/
theorem claim_C5_finish_once (a : audio) (ns : List Nat)
    (ha : a.m_silence = false) (hp : ∀ n ∈ ns, 0 < n) :
    (a.pulls ns).2 ≤ 1 ∧
    ((a.pulls ns).1.m_silence = true → (a.pulls ns).2 = 1) := by
  induction ns generalizing a with
  | nil =>
    refine ⟨by simp [audio.pulls], ?_⟩
    intro h
    rw [show (a.pulls []).1 = a from rfl] at h
    rw [ha] at h
    cases h
  | cons n ns ih =>
    have hn : 0 < n := hp n (by simp)
    by_cases hs : a.silenceNow n = true
    case pos =>
      have hf : (a.data n).fired = true := by
        rw [audio.data_fired, hs, ha]
        rfl
      have hpost : (a.data n).post.m_silence = true := by
        rw [audio.data_post_silence, hs]
      have habs2 : (a.data n).post.m_decoder.frames.length ≤
          (a.data n).post.m_decoder.pos ∨
          (a.data n).post.m_stop_later = true := by
        have hs2 := hs
        unfold audio.silenceNow at hs2
        rcases Bool.or_eq_true .. |>.mp hs2 with h | h
        · left
          rw [audio.data_post_frames, audio.data_post_pos]
          have h0 : a.framesDecoded n = 0 := by simpa using h
          have := framesDecoded_zero_exhausted a n hn h0
          omega
        · right
          rw [audio.data_post_stop_later]
          exact h
      have hrest := pulls_silent_absorb ns ((a.data n).post) hpost habs2
        (fun m hm => hp m (List.mem_cons_of_mem _ hm))
      rw [audio.pulls_cons, hf, hrest.1]
      exact ⟨by simp, fun _ => by simp⟩
    case neg =>
      rw [Bool.not_eq_true] at hs
      have hf : (a.data n).fired = false := by
        rw [audio.data_fired, hs]
        rfl
      have hpost : (a.data n).post.m_silence = false := by
        rw [audio.data_post_silence, hs]
      have hrest := ih ((a.data n).post) hpost
        (fun m hm => hp m (List.mem_cons_of_mem _ hm))
      rw [audio.pulls_cons, hf]
      simpa using hrest

/-- Witness for claim C5 at concrete inputs: pulling `cexAudio` with one
frame per pull fires the callback exactly once, on the exhausting pull. -/
theorem claim_C5_witness :
    (cexAudio.pulls [1, 1, 1]).2 ≤ 1 ∧ (cexAudio.pulls [1, 1, 1]).2 = 1 := by
  have h := claim_C5_finish_once cexAudio [1, 1, 1] (by decide) (by decide)
  exact ⟨h.1, h.2 (by decide)⟩

/-!  The lock protocol around the silence flags. -/

theorem audio.dataEvents_eq (a : audio) (n : Nat) :
    a.dataEvents n =
      if (a.silenceNow n && !a.m_silence) = true then
        [Ev.lockMutex, Ev.setFlag true, Ev.unlockMutex, Ev.notifyAll]
      else [Ev.setFlag (a.silenceNow n)] :=
  rfl

theorem oastream.callbackEvents_eq (s : oastream) (n : Nat) :
    s.callbackEvents n =
      if ((s.postEvict n).isEmpty && !s.m_silence) = true then
        [Ev.lockMutex, Ev.setFlag true, Ev.unlockMutex, Ev.notifyAll,
         Ev.setFlag (s.postEvict n).isEmpty]
      else [Ev.setFlag (s.postEvict n).isEmpty] :=
  rfl

/-- A source that was playing but whose decoder is fully drained. -/
def drainedAudio : audio :=
  { m_decoder := { frames := [], pos := 0 },
    m_has_finish_callback := false, m_silence := false,
    m_stop_later := false }

/-- Claim C8 is refuted on the code: the silence transition of
`audio::data` on `drainedAudio` is a flag update that releases waiters,
yet its `notify_all` is NOT performed under the lock — the `lock_guard`
scope ends before `finish_playing_callback()` is called, so the
notification happens after the mutex is released (the same shape holds
for the stream's transition at lines 363-369). -/
theorem claim_C8_counterexample :
    drainedAudio.m_silence = false ∧
    (drainedAudio.data 1).post.m_silence = true ∧
    (drainedAudio.data 1).fired = true ∧
    notifsInLock (drainedAudio.dataEvents 1) = false := by
  decide

/-- Claim C8 (amended): every silence-flag update that can release a
waiter (a `false → true` transition, for the Source as for the Mixer) is
performed while holding the flag's own mutex, and the matching
`notify_all` is issued in the same invocation right after the critical
section — so a thread that checks the flag under the lock either sees it
true or is registered on the condition variable before the notification
is delivered: no missed-wakeup window.  The unlocked flag assignments
(line 201, line 371, line 394, line 310) never perform such a
transition. -/
theorem claim_C8_lock_protocol (a : audio) (n : Nat) (s : oastream)
    (m : Nat) :
    releasesInLock a.m_silence (a.dataEvents n) = true ∧
    noPendingNotify a.m_silence (a.dataEvents n) = true ∧
    releasesInLock s.m_silence (s.callbackEvents m) = true ∧
    noPendingNotify s.m_silence (s.callbackEvents m) = true ∧
    releasesInLock s.m_silence oastream.playImplEvents = true ∧
    releasesInLock a.m_silence oastream.playAudioEvents = true := by
  refine ⟨?_, ?_, ?_, ?_, ?_, ?_⟩
  · rw [audio.dataEvents_eq]
    by_cases h : (a.silenceNow n && !a.m_silence) = true
    · rw [if_pos h]
      simp [releasesInLock, List.foldl]
    · rw [if_neg h]
      simp only [Bool.and_eq_true, Bool.not_eq_true', not_and] at h
      simp [releasesInLock, List.foldl]
      by_cases h2 : a.silenceNow n = true
      · cases hm : a.m_silence with
        | true => exact Or.inr rfl
        | false => exact absurd hm (h h2)
      · exact Or.inl (Bool.eq_false_iff.mpr h2)
  · rw [audio.dataEvents_eq]
    by_cases h : (a.silenceNow n && !a.m_silence) = true
    · rw [if_pos h]
      simp [noPendingNotify, List.foldl]
    · rw [if_neg h]
      simp only [Bool.and_eq_true, Bool.not_eq_true', not_and] at h
      simp [noPendingNotify, List.foldl]
      by_cases h2 : a.silenceNow n = true
      · cases hm : a.m_silence with
        | true => exact Or.inr rfl
        | false => exact absurd hm (h h2)
      · exact Or.inl (Bool.eq_false_iff.mpr h2)
  · rw [oastream.callbackEvents_eq]
    by_cases h : ((s.postEvict m).isEmpty && !s.m_silence) = true
    · rw [if_pos h]
      simp [releasesInLock, List.foldl]
    · rw [if_neg h]
      simp only [Bool.and_eq_true, Bool.not_eq_true', not_and] at h
      simp [releasesInLock, List.foldl]
      by_cases h2 : (s.postEvict m).isEmpty = true
      · cases hm : s.m_silence with
        | true => exact Or.inr rfl
        | false => exact absurd hm (h h2)
      · exact Or.inl (fun he => h2 (by simp [he]))
  · rw [oastream.callbackEvents_eq]
    by_cases h : ((s.postEvict m).isEmpty && !s.m_silence) = true
    · rw [if_pos h]
      simp [noPendingNotify, List.foldl]
    · rw [if_neg h]
      simp only [Bool.and_eq_true, Bool.not_eq_true', not_and] at h
      simp [noPendingNotify, List.foldl]
      by_cases h2 : (s.postEvict m).isEmpty = true
      · cases hm : s.m_silence with
        | true => exact Or.inr rfl
        | false => exact absurd hm (h h2)
      · exact Or.inl (fun he => h2 (by simp [he]))
  · simp [releasesInLock, oastream.playImplEvents, List.foldl]
  · simp [releasesInLock, oastream.playAudioEvents, List.foldl]

/-!  Index-level facts about the mixing buffers. -/

theorem vecResize_length (l : List Sample) (n : Nat) :
    (vecResize l n).length = n := by
  simp [vecResize]
  omega

theorem writeFront_length (scratch d : List Sample)
    (h : d.length ≤ scratch.length) :
    (writeFront scratch d).length = scratch.length := by
  simp [writeFront]
  omega

theorem writeFront_getElem_lt (scratch d : List Sample) (i : Nat)
    (h : i < d.length) :
    (writeFront scratch d)[i]? = d[i]? := by
  unfold writeFront
  rw [List.getElem?_append, if_pos h]

theorem mixAccum_length (dst scratch : List Sample) (v : ℚ) (k : Nat)
    (hk1 : k ≤ dst.length) (hk2 : k ≤ scratch.length) :
    (mixAccum dst scratch v k).length = dst.length := by
  simp [mixAccum]
  omega

theorem mixAccum_getElem_lt (dst scratch : List Sample) (v : ℚ) (k i : Nat)
    (h : i < k) (hk1 : k ≤ dst.length) (hk2 : k ≤ scratch.length)
    (o q : ℚ) (ho : dst[i]? = some o) (hq : scratch[i]? = some q) :
    (mixAccum dst scratch v k)[i]? = some (o + v * q) := by
  unfold mixAccum
  have hlen : ((dst.take k).zipWith (fun o s => o + v * s)
      (scratch.take k)).length = k := by
    simp
    omega
  rw [List.getElem?_append, if_pos (by omega : i < ((dst.take k).zipWith
    (fun o s => o + v * s) (scratch.take k)).length)]
  rw [List.getElem?_zipWith]
  rw [List.getElem?_take, if_pos h, List.getElem?_take, if_pos h, ho, hq]

theorem mixAccum_getElem_ge (dst scratch : List Sample) (v : ℚ) (k i : Nat)
    (h : k ≤ i) (hk1 : k ≤ dst.length) (hk2 : k ≤ scratch.length) :
    (mixAccum dst scratch v k)[i]? = dst[i]? := by
  unfold mixAccum
  have hlen : ((dst.take k).zipWith (fun o s => o + v * s)
      (scratch.take k)).length = k := by
    simp
    omega
  rw [List.getElem?_append, if_neg (by omega), hlen]
  rw [List.getElem?_drop]
  congr 1
  omega

theorem flatten_length_wf (c : Nat) : ∀ (l : List Frame),
    (∀ f ∈ l, f.length = c) → l.flatten.length = l.length * c
  | [], _ => by simp
  | f :: l, h => by
    have hf : f.length = c := h f (by simp)
    have hl := flatten_length_wf c l (fun g hg => h g (by simp [hg]))
    simp [hf, hl]
    ring

/-- The samples a source's pull writes into the scratch buffer: the
flattening of the frames its decoder produces. -/
def audio.produced (a : audio) (n : Nat) : List Sample :=
  ((a.m_decoder.frames.drop a.m_decoder.pos).take n).flatten

theorem audio.produced_length (a : audio) (n c : Nat)
    (hwf : ∀ f ∈ a.m_decoder.frames, f.length = c) :
    (a.produced n).length = a.framesDecoded n * c := by
  unfold audio.produced audio.framesDecoded
  exact flatten_length_wf c _ (fun f hf =>
    hwf f (List.drop_subset _ _ (List.take_subset _ _ hf)))

theorem audio.framesDecoded_le (a : audio) (n : Nat) :
    a.framesDecoded n ≤ n := by
  unfold audio.framesDecoded
  simp

theorem audio.data_written_flatten (a : audio) (n : Nat) :
    (a.data n).written.flatten = a.produced n := by
  rw [audio.data_written]
  rfl

theorem oastream.cb_output (s : oastream) (n : Nat) :
    (s.data_callback_impl n).output = (s.mixFold n).dst := by
  rw [oastream.data_callback_impl_eq]

/-- Claim C3: mixing is additive and linear.  For a callback over two
active sources with well-formed frames (one sample per channel), the
destination buffer — zero-filled first — holds `v*A[i] + v*B[i]` wherever
both sources produced a sample, the single scaled sample where only one
did, and zero where neither did. -/
theorem claim_C3_mix_linear (s : oastream) (n : Nat) (a b : audio)
    (hs : s.m_audios = [a, b])
    (hwa : ∀ f ∈ a.m_decoder.frames, f.length = s.channels)
    (hwb : ∀ f ∈ b.m_decoder.frames, f.length = s.channels) :
    ((s.data_callback_impl n).output.length = n * s.channels) ∧
    (∀ (i : Nat) (x y : Sample),
      (a.produced n)[i]? = some x → (b.produced n)[i]? = some y →
      (s.data_callback_impl n).output[i]? =
        some (s.m_volume * x + s.m_volume * y)) ∧
    (∀ (i : Nat) (x : Sample),
      (a.produced n)[i]? = some x → (b.produced n).length ≤ i →
      (s.data_callback_impl n).output[i]? = some (s.m_volume * x)) ∧
    (∀ (i : Nat) (y : Sample),
      (b.produced n)[i]? = some y → (a.produced n).length ≤ i →
      (s.data_callback_impl n).output[i]? = some (s.m_volume * y)) ∧
    (∀ (i : Nat), (a.produced n).length ≤ i → (b.produced n).length ≤ i →
      i < n * s.channels → (s.data_callback_impl n).output[i]? = some 0) := by
  have hout := oastream.cb_output s n
  have hfold : s.mixFold n =
      mixOne s.channels s.m_volume n
        (mixOne s.channels s.m_volume n
          { dst := List.replicate (n * s.channels) 0,
            scratch := vecResize s.m_frames_buffer (n * s.channels),
            audios := [], fired := [] } a) b := by
    unfold oastream.mixFold
    rw [hs]
    rfl
  have hdst : (s.data_callback_impl n).output =
      mixAccum
        (mixAccum (List.replicate (n * s.channels) 0)
          (writeFront (vecResize s.m_frames_buffer (n * s.channels))
            ((a.data n).written.flatten))
          s.m_volume ((a.data n).framesDecoded * s.channels))
        (writeFront
          (writeFront (vecResize s.m_frames_buffer (n * s.channels))
            ((a.data n).written.flatten))
          ((b.data n).written.flatten))
        s.m_volume ((b.data n).framesDecoded * s.channels) := by
    rw [hout, hfold]
    rfl
  rw [audio.data_written_flatten a n, audio.data_written_flatten b n,
    audio.data_framesDecoded a n, audio.data_framesDecoded b n] at hdst
  have hlenA : (a.produced n).length = a.framesDecoded n * s.channels :=
    a.produced_length n s.channels hwa
  have hlenB : (b.produced n).length = b.framesDecoded n * s.channels :=
    b.produced_length n s.channels hwb
  have hkA : a.framesDecoded n * s.channels ≤ n * s.channels :=
    Nat.mul_le_mul_right _ (a.framesDecoded_le n)
  have hkB : b.framesDecoded n * s.channels ≤ n * s.channels :=
    Nat.mul_le_mul_right _ (b.framesDecoded_le n)
  have hd0len : (List.replicate (n * s.channels) (0 : ℚ)).length
      = n * s.channels := by simp
  have hscr0len : (vecResize s.m_frames_buffer (n * s.channels)).length
      = n * s.channels := vecResize_length _ _
  have hscr1len : (writeFront (vecResize s.m_frames_buffer
      (n * s.channels)) (a.produced n)).length = n * s.channels := by
    rw [writeFront_length _ _ (by omega), hscr0len]
  have hscr2len : (writeFront (writeFront (vecResize s.m_frames_buffer
      (n * s.channels)) (a.produced n)) (b.produced n)).length
      = n * s.channels := by
    rw [writeFront_length _ _ (by omega), hscr1len]
  have hd1len : (mixAccum (List.replicate (n * s.channels) 0)
      (writeFront (vecResize s.m_frames_buffer (n * s.channels))
        (a.produced n))
      s.m_volume (a.framesDecoded n * s.channels)).length
      = n * s.channels := by
    rw [mixAccum_length _ _ _ _ (by omega) (by omega), hd0len]
  have hd2len : (s.data_callback_impl n).output.length = n * s.channels := by
    rw [hdst, mixAccum_length _ _ _ _ (by omega) (by omega), hd1len]
  -- the value of the first accumulation at index i
  have hd1get : ∀ (i : Nat) (x : Sample), (a.produced n)[i]? = some x →
      (mixAccum (List.replicate (n * s.channels) 0)
        (writeFront (vecResize s.m_frames_buffer (n * s.channels))
          (a.produced n))
        s.m_volume (a.framesDecoded n * s.channels))[i]? =
      some (0 + s.m_volume * x) := by
    intro i x hx
    have hiA : i < (a.produced n).length := (List.getElem?_eq_some.mp hx).1
    refine mixAccum_getElem_lt _ _ _ _ _ (by omega) (by omega) (by omega)
      0 x ?_ ?_
    · rw [List.getElem?_replicate, if_pos (by omega)]
    · rw [writeFront_getElem_lt _ _ _ hiA]
      exact hx
  have hd1skip : ∀ (i : Nat), (a.produced n).length ≤ i →
      (mixAccum (List.replicate (n * s.channels) 0)
        (writeFront (vecResize s.m_frames_buffer (n * s.channels))
          (a.produced n))
        s.m_volume (a.framesDecoded n * s.channels))[i]? =
      (List.replicate (n * s.channels) (0 : ℚ))[i]? := by
    intro i hi
    exact mixAccum_getElem_ge _ _ _ _ _ (by omega) (by omega) (by omega)
  refine ⟨hd2len, ?_, ?_, ?_, ?_⟩
  · intro i x y hx hy
    have hiB : i < (b.produced n).length := (List.getElem?_eq_some.mp hy).1
    rw [hdst]
    rw [mixAccum_getElem_lt _ _ _ _ _ (by omega) (by omega) (by omega)
      (0 + s.m_volume * x) y (hd1get i x hx)
      (by rw [writeFront_getElem_lt _ _ _ hiB]; exact hy)]
    rw [zero_add]
  · intro i x hx hiB
    rw [hdst]
    rw [mixAccum_getElem_ge _ _ _ _ _ (by omega) (by omega) (by omega)]
    rw [hd1get i x hx, zero_add]
  · intro i y hy hiA
    have hiB : i < (b.produced n).length := (List.getElem?_eq_some.mp hy).1
    rw [hdst]
    rw [mixAccum_getElem_lt _ _ _ _ _ (by omega) (by omega) (by omega)
      0 y ?_ ?_]
    · rw [zero_add]
    · rw [hd1skip i hiA, List.getElem?_replicate, if_pos (by omega)]
    · rw [writeFront_getElem_lt _ _ _ hiB]
      exact hy
  · intro i hiA hiB hin
    rw [hdst]
    rw [mixAccum_getElem_ge _ _ _ _ _ (by omega) (by omega) (by omega)]
    rw [hd1skip i hiA, List.getElem?_replicate, if_pos hin]

/-- A one-channel two-frame source in its playing state. -/
def mixA : audio :=
  { m_decoder := { frames := [[1], [2]], pos := 0 },
    m_has_finish_callback := false, m_silence := false,
    m_stop_later := false }

/-- A one-channel one-frame source in its playing state. -/
def mixB : audio :=
  { m_decoder := { frames := [[10]], pos := 0 },
    m_has_finish_callback := false, m_silence := false,
    m_stop_later := false }

/-- A one-channel stream at volume `1/2` playing `mixA` and `mixB`. -/
def mixStream : oastream :=
  { channels := 1, m_audios := [mixA, mixB], m_frames_buffer := [],
    buffer_cap := 0, m_volume := 1 / 2, m_stop_later := false,
    m_silence := false, device_running := true }

/-- Witness for claim C3 at concrete inputs: at index 0 both sources
contribute, at index 1 only the longer one does. -/
theorem claim_C3_witness :
    (mixStream.data_callback_impl 2).output[0]? =
      some (mixStream.m_volume * 1 + mixStream.m_volume * 10) ∧
    (mixStream.data_callback_impl 2).output[1]? =
      some (mixStream.m_volume * 2) := by
  have h := claim_C3_mix_linear mixStream 2 mixA mixB rfl
    (by decide) (by decide)
  exact ⟨h.2.1 0 1 10 (by decide) (by decide),
    h.2.2.1 1 2 (by decide) (by decide)⟩

end Mapp
